import Mathlib

/-! Shallow embedding of src/services/auth.service.js: an account access
service backed by a graph store, with bcrypt-style password hashing and
signed-token issuance modelled after the external contracts given in the
specification (section 6). Sessions and toolkit calls leave an event trace
so that resource-lifecycle properties can be stated. -/

/-- A JavaScript-style primitive value stored in a property map. -/
inductive JValue where
  | undef : JValue
  | bool : Bool → JValue
  | str : String → JValue
deriving DecidableEq, Repr

/-- A JavaScript object: an ordered association list of named fields. -/
abbrev JObj := List (String × JValue)

/-- Property lookup: the first binding of the key, if any. -/
def JObj.get : JObj → String → Option JValue
  | [], _ => none
  | p :: o, k => if p.1 == k then some p.2 else JObj.get o k

/-- Property access with JavaScript semantics: undefined when the key is absent. -/
def JObj.getD (o : JObj) (k : String) : JValue :=
  (JObj.get o k).getD JValue.undef

/-- Spread-with-override semantics of building an object from o with field k
set to v: an existing binding of k is updated in place, otherwise (k, v) is
appended at the end. -/
def JObj.set : JObj → String → JValue → JObj
  | [], k, v => [(k, v)]
  | p :: o, k, v => if p.1 == k then (k, v) :: o else p :: JObj.set o k v

/-- Rest-destructuring that drops the field k and keeps every other field. -/
def JObj.remove (o : JObj) (k : String) : JObj :=
  o.filter (fun p => !(p.1 == k))

/-- Modelled from the spec: the signing secret, a configuration input supplied
at process startup (src/constants.js is not among the provided sources). -/
def JWT_SECRET : String := "jwt-secret"

/-- Modelled from the spec: the bcrypt cost factor, a configuration input
supplied at process startup (src/constants.js is not among the provided
sources). -/
def SALT_ROUNDS : Nat := 10

/-- Credential toolkit contract (spec section 6): a salted one-way hash of the
plaintext at the given cost factor. -/
def bcrypt.hash (plaintext : String) (costFactor : Nat) : String :=
  "bcrypt:" ++ toString costFactor ++ ":" ++ plaintext

/-- Credential toolkit contract (spec section 6): verify a plaintext against a
stored hash; succeeds exactly when the hash was produced from this plaintext at
the configured cost factor. -/
def bcrypt.compare (plaintext hashed : String) : Bool :=
  bcrypt.hash plaintext SALT_ROUNDS == hashed

/-- An opaque signed token: the claims payload bound to the signing secret. -/
structure Jwt where
  claims : JObj
  secret : String
deriving DecidableEq, Repr

/-- Credential toolkit contract: sign a claims payload with a secret. -/
def Jwt.sign (claims : JObj) (secret : String) : Jwt :=
  ⟨claims, secret⟩

/-- Credential toolkit contract: verify a token against a secret, recovering
the claims exactly when the secret matches the one the token was signed with. -/
def Jwt.verify (t : Jwt) (secret : String) : Option JObj :=
  if t.secret == secret then some t.claims else none

/-- A thrown error: a driver error carrying a code string, or the structured
ValidationError of src/errors/validation.error.js (modelled from the spec,
section 7: a message plus a field-to-message map). -/
inductive JSError where
  | neo4j : String → String → JSError
  | validation : String → List (String × String) → JSError
deriving DecidableEq, Repr

/-- The code property read by the catch clause: driver errors carry one, the
structured validation error does not. -/
def JSError.code : JSError → Option String
  | JSError.neo4j c _ => some c
  | JSError.validation _ _ => none

/-- A User node as created by the CREATE query: userId, email, password hash,
name. -/
structure UserNode where
  userId : String
  email : String
  password : String
  name : String
deriving DecidableEq, Repr

/-- The property map of a User node as the driver record exposes it. -/
def UserNode.properties (u : UserNode) : JObj :=
  [("userId", JValue.str u.userId), ("email", JValue.str u.email),
   ("password", JValue.str u.password), ("name", JValue.str u.name)]

/-- Graph store state: the stored User nodes plus the counter driving the
server-generated identifiers. -/
structure DBState where
  users : List UserNode
  nextId : Nat
deriving DecidableEq, Repr

/-- Server-generated unique identifier, randomUuid in the CREATE query. -/
def randomUuid (n : Nat) : String :=
  "uuid-" ++ toString n

/-- The store executing the CREATE query of register inside executeWrite, with
the uniqueness constraint on User email in force (spec section 6: a write that
violates it raises a recognizable constraint-violation error). -/
def executeWriteCreateUser (db : DBState) (email encrypted name : String) :
    Except JSError (UserNode × DBState) :=
  if db.users.any (fun u => u.email == email) then
    Except.error (JSError.neo4j "Neo.ClientError.Schema.ConstraintValidationFailed"
      "node already exists with label User and property email")
  else
    let node : UserNode := ⟨randomUuid db.nextId, email, encrypted, name⟩
    Except.ok (node, ⟨db.users ++ [node], db.nextId + 1⟩)

/-- The store executing the MATCH query of authenticate inside executeRead: all
User nodes carrying the given email, in store order. -/
def executeReadMatchUser (db : DBState) (email : String) : List UserNode :=
  db.users.filter (fun u => u.email == email)

/-- Observable resource and toolkit events of one service call, in execution
order. -/
inductive Event where
  | sessionOpen : Event
  | sessionClose : Event
  | storeWrite : Event
  | storeRead : Event
  | hashPassword : Event
  | comparePassword : Event
  | signToken : Event
deriving DecidableEq, Repr

/-- The record a successful call returns: the safe properties spread into the
result, together with the token field added last. -/
structure UserWithToken where
  props : JObj
  token : Jwt
deriving DecidableEq, Repr

/-- The authenticate outcome: the false value, or the user record with token. -/
inductive AuthResult where
  | failed : AuthResult
  | success : UserWithToken → AuthResult
deriving DecidableEq, Repr

namespace AuthService

/-- userToClaims from the source: destructures name and userId off the safe
properties and returns the claims object with sub duplicated from userId. -/
def userToClaims (user : JObj) : JObj :=
  [("sub", JObj.getD user "userId"), ("userId", JObj.getD user "userId"),
   ("name", JObj.getD user "name")]

/-- claimsToUser from the source: spreads the claims and sets userId from sub. -/
def claimsToUser (claims : JObj) : JObj :=
  JObj.set claims "userId" (JObj.getD claims "sub")

/-- The session-scoped part of register, from driver.session() through the
try, the catch mapping constraint violations to the validation error, and the
finally that closes the session on every path; parametric in the outcome the
store gives executeWrite. -/
def registerSession (email : String) (writeOutcome : Except JSError UserNode) :
    Except JSError UserWithToken × List Event :=
  let tried : Except JSError UserWithToken × List Event :=
    match writeOutcome with
    | Except.error e => (Except.error e, [Event.storeWrite])
    | Except.ok node =>
        let safeProperties := JObj.remove (UserNode.properties node) "password"
        (Except.ok ⟨safeProperties, Jwt.sign (userToClaims safeProperties) JWT_SECRET⟩,
          [Event.storeWrite, Event.signToken])
  let caught : Except JSError UserWithToken :=
    match tried.1 with
    | Except.error e =>
        if JSError.code e == some "Neo.ClientError.Schema.ConstraintValidationFailed" then
          Except.error (JSError.validation
            ("An account already exists with the email address " ++ email)
            [("email", "Email address already taken")])
        else Except.error e
    | Except.ok v => Except.ok v
  (caught, Event.sessionOpen :: tried.2 ++ [Event.sessionClose])

/-- register from the source: hash the password, then run the session-scoped
write against the store model and thread the store state. -/
def register (db : DBState) (email plainPassword name : String) :
    Except JSError UserWithToken × DBState × List Event :=
  let encrypted := bcrypt.hash plainPassword SALT_ROUNDS
  match executeWriteCreateUser db email encrypted name with
  | Except.error e =>
      let s := registerSession email (Except.error e)
      (s.1, db, Event.hashPassword :: s.2)
  | Except.ok (node, dbNew) =>
      let s := registerSession email (Except.ok node)
      (s.1, dbNew, Event.hashPassword :: s.2)

/-- The body of authenticate, parametric in the outcome the store gives
executeRead. Mirrors the source control flow exactly: the session is closed
right after the read returns, there is no try/finally around the read, and the
password comparison happens only after the close. -/
def authenticateSession (unencryptedPassword : String)
    (readOutcome : Except JSError (List UserNode)) :
    Except JSError AuthResult × List Event :=
  match readOutcome with
  | Except.error e => (Except.error e, [Event.sessionOpen, Event.storeRead])
  | Except.ok [] =>
      (Except.ok AuthResult.failed,
        [Event.sessionOpen, Event.storeRead, Event.sessionClose])
  | Except.ok (user :: _) =>
      let encryptedPassword := user.password
      let correct := bcrypt.compare unencryptedPassword encryptedPassword
      if correct == false then
        (Except.ok AuthResult.failed,
          [Event.sessionOpen, Event.storeRead, Event.sessionClose,
           Event.comparePassword])
      else
        let safeProperties := JObj.remove (UserNode.properties user) "password"
        (Except.ok (AuthResult.success
            ⟨safeProperties, Jwt.sign (userToClaims safeProperties) JWT_SECRET⟩),
          [Event.sessionOpen, Event.storeRead, Event.sessionClose,
           Event.comparePassword, Event.signToken])

/-- authenticate from the source composed with the store model, in which the
MATCH read itself succeeds and returns the matching User nodes. -/
def authenticate (db : DBState) (email unencryptedPassword : String) :
    Except JSError AuthResult × List Event :=
  authenticateSession unencryptedPassword (Except.ok (executeReadMatchUser db email))

end AuthService

/-! Helper lemmas about the object operations. -/

theorem JObj.get_set_self (o : JObj) (k : String) (v : JValue) :
    JObj.get (JObj.set o k v) k = some v := by
  induction o with
  | nil => simp [JObj.set, JObj.get]
  | cons p o ih =>
      by_cases h : (p.1 == k) = true
      · simp [JObj.set, JObj.get, h]
      · simp [JObj.set, JObj.get, h, ih]

theorem JObj.get_set_ne (o : JObj) (k k2 : String) (v : JValue) (h : k2 ≠ k) :
    JObj.get (JObj.set o k v) k2 = JObj.get o k2 := by
  induction o with
  | nil => simp [JObj.set, JObj.get, Ne.symm h]
  | cons p o ih =>
      by_cases hp : (p.1 == k) = true
      · have hpk : p.1 = k := by simpa using hp
        simp [JObj.set, JObj.get, hp, hpk, Ne.symm h]
      · simp [JObj.set, JObj.get, hp, ih]

/-- Claim C6: for every user record having userId and name fields, the
round trip claimsToUser after userToClaims reproduces userId and name. -/
theorem claims_roundtrip_preserves_identity (u : JObj) (uid nm : JValue)
    (h1 : JObj.get u "userId" = some uid) (h2 : JObj.get u "name" = some nm) :
    JObj.get (AuthService.claimsToUser (AuthService.userToClaims u)) "userId" = some uid ∧
    JObj.get (AuthService.claimsToUser (AuthService.userToClaims u)) "name" = some nm := by
  constructor <;>
    simp [AuthService.claimsToUser, AuthService.userToClaims, JObj.set, JObj.get,
      JObj.getD, h1, h2]

theorem claims_roundtrip_preserves_identity_witness :
    JObj.get (AuthService.claimsToUser (AuthService.userToClaims
      [("userId", JValue.str "uuid-7"), ("name", JValue.str "Alice")])) "userId" =
        some (JValue.str "uuid-7") ∧
    JObj.get (AuthService.claimsToUser (AuthService.userToClaims
      [("userId", JValue.str "uuid-7"), ("name", JValue.str "Alice")])) "name" =
        some (JValue.str "Alice") :=
  claims_roundtrip_preserves_identity
    [("userId", JValue.str "uuid-7"), ("name", JValue.str "Alice")]
    (JValue.str "uuid-7") (JValue.str "Alice") (by decide) (by decide)

/-- Claim C7: userToClaims is a pure projection returning exactly the record
with fields sub, userId, name, where sub and userId both hold the userId of
the input and name holds the name of the input. -/
theorem userToClaims_exact_projection (user : JObj) :
    (AuthService.userToClaims user).map Prod.fst = ["sub", "userId", "name"] ∧
    JObj.get (AuthService.userToClaims user) "sub" = some (JObj.getD user "userId") ∧
    JObj.get (AuthService.userToClaims user) "userId" = some (JObj.getD user "userId") ∧
    JObj.get (AuthService.userToClaims user) "name" = some (JObj.getD user "name") := by
  refine ⟨rfl, ?_, ?_, ?_⟩ <;> simp [AuthService.userToClaims, JObj.get]

/-- Claim C9: claimsToUser passes every field of the claims through unchanged
except userId, which it sets to the sub field of the input, overwriting any
userId already present. -/
theorem claimsToUser_overrides_userId (claims : JObj) :
    JObj.get (AuthService.claimsToUser claims) "userId" =
      some (JObj.getD claims "sub") ∧
    ∀ k, k ≠ "userId" →
      JObj.get (AuthService.claimsToUser claims) k = JObj.get claims k := by
  constructor
  · exact JObj.get_set_self claims "userId" (JObj.getD claims "sub")
  · intro k hk
    exact JObj.get_set_ne claims "userId" k (JObj.getD claims "sub") hk

theorem claimsToUser_overrides_userId_witness :
    JObj.get (AuthService.claimsToUser
      [("sub", JValue.str "s1"), ("userId", JValue.str "old"), ("name", JValue.str "A")])
      "userId" = some (JObj.getD
        [("sub", JValue.str "s1"), ("userId", JValue.str "old"), ("name", JValue.str "A")]
        "sub") ∧
    JObj.get (AuthService.claimsToUser
      [("sub", JValue.str "s1"), ("userId", JValue.str "old"), ("name", JValue.str "A")])
      "name" = JObj.get
        [("sub", JValue.str "s1"), ("userId", JValue.str "old"), ("name", JValue.str "A")]
        "name" :=
  ⟨(claimsToUser_overrides_userId
      [("sub", JValue.str "s1"), ("userId", JValue.str "old"), ("name", JValue.str "A")]).1,
   (claimsToUser_overrides_userId
      [("sub", JValue.str "s1"), ("userId", JValue.str "old"), ("name", JValue.str "A")]).2
      "name" (by decide)⟩

/-- Claim C2: register fails with the validation error whose field map carries
email mapped to the taken message exactly when the write raises the uniqueness
constraint violation; any other failure of the write propagates unchanged, and
a successful write yields no error. The last conjunct instantiates this at the
store model, where the violation arises from an already registered email. -/
theorem register_duplicate_email_validation (db : DBState)
    (email pw nm : String) (e : JSError) (node : UserNode) :
    (JSError.code e = some "Neo.ClientError.Schema.ConstraintValidationFailed" →
      (AuthService.registerSession email (Except.error e)).1 =
        Except.error (JSError.validation
          ("An account already exists with the email address " ++ email)
          [("email", "Email address already taken")])) ∧
    (JSError.code e ≠ some "Neo.ClientError.Schema.ConstraintValidationFailed" →
      (AuthService.registerSession email (Except.error e)).1 = Except.error e) ∧
    (∃ w, (AuthService.registerSession email (Except.ok node)).1 = Except.ok w) ∧
    (db.users.any (fun u => u.email == email) = true →
      (AuthService.register db email pw nm).1 =
        Except.error (JSError.validation
          ("An account already exists with the email address " ++ email)
          [("email", "Email address already taken")])) := by
  refine ⟨?_, ?_, ⟨_, rfl⟩, ?_⟩
  · intro h
    simp [AuthService.registerSession, h]
  · intro h
    simp only [AuthService.registerSession, beq_iff_eq]
    rw [if_neg h]
  · intro h
    simp [AuthService.register, executeWriteCreateUser, h,
      AuthService.registerSession, JSError.code]

theorem register_duplicate_email_validation_witness :
    (AuthService.register ⟨[⟨"uuid-0", "a@x.com", "h0", "Alice"⟩], 1⟩
        "a@x.com" "secret123" "Bob").1 =
      Except.error (JSError.validation
        ("An account already exists with the email address " ++ "a@x.com")
        [("email", "Email address already taken")]) :=
  (register_duplicate_email_validation ⟨[⟨"uuid-0", "a@x.com", "h0", "Alice"⟩], 1⟩
    "a@x.com" "secret123" "Bob" (JSError.neo4j "Neo.TransientError.General.Unknown" "m")
    ⟨"u", "e", "p", "n"⟩).2.2.2 (by decide)

/-- Claim C3: authenticate returns the false outcome both when no user with
the given email exists and when the stored hash does not match the supplied
password; neither case raises an error, and the two outcomes are the same
value, hence observably identical to the caller. -/
theorem authenticate_returns_false_uniformly (db : DBState) (email pw : String) :
    (executeReadMatchUser db email = [] →
      (AuthService.authenticate db email pw).1 = Except.ok AuthResult.failed) ∧
    (∀ u rest, executeReadMatchUser db email = u :: rest →
      bcrypt.compare pw u.password = false →
      (AuthService.authenticate db email pw).1 = Except.ok AuthResult.failed) := by
  constructor
  · intro h
    simp [AuthService.authenticate, AuthService.authenticateSession, h]
  · intro u rest h hc
    simp [AuthService.authenticate, AuthService.authenticateSession, h, hc]

theorem authenticate_returns_false_uniformly_witness :
    (AuthService.authenticate
        ⟨[⟨"uuid-0", "a@x.com", bcrypt.hash "secret123" SALT_ROUNDS, "Alice"⟩], 1⟩
        "nouser@x.com" "x").1 = Except.ok AuthResult.failed ∧
    (AuthService.authenticate
        ⟨[⟨"uuid-0", "a@x.com", bcrypt.hash "secret123" SALT_ROUNDS, "Alice"⟩], 1⟩
        "a@x.com" "wrong").1 = Except.ok AuthResult.failed :=
  ⟨(authenticate_returns_false_uniformly
      ⟨[⟨"uuid-0", "a@x.com", bcrypt.hash "secret123" SALT_ROUNDS, "Alice"⟩], 1⟩
      "nouser@x.com" "x").1 (by decide),
   (authenticate_returns_false_uniformly
      ⟨[⟨"uuid-0", "a@x.com", bcrypt.hash "secret123" SALT_ROUNDS, "Alice"⟩], 1⟩
      "a@x.com" "wrong").2
      ⟨"uuid-0", "a@x.com", bcrypt.hash "secret123" SALT_ROUNDS, "Alice"⟩ []
      (by decide) (by decide)⟩

/-- Claim C4 fails on the code: register closes its session on every exit path
through the finally block, but authenticate has no try/finally, so when the
store raises an error during executeRead the error propagates with the session
still open. Evaluated at a concrete failing read outcome. -/
theorem authenticate_read_error_leaks_session (email pw : String)
    (w : Except JSError UserNode) :
    ((AuthService.registerSession email w).2.count Event.sessionClose = 1 ∧
      (AuthService.registerSession email w).2.getLast? = some Event.sessionClose) ∧
    ((AuthService.authenticateSession pw (Except.error
        (JSError.neo4j "Neo.ClientError.Security.Unauthorized" "connection failure"))).1 =
      Except.error (JSError.neo4j "Neo.ClientError.Security.Unauthorized" "connection failure") ∧
      Event.sessionClose ∉ (AuthService.authenticateSession pw (Except.error
        (JSError.neo4j "Neo.ClientError.Security.Unauthorized" "connection failure"))).2 ∧
      Event.sessionOpen ∈ (AuthService.authenticateSession pw (Except.error
        (JSError.neo4j "Neo.ClientError.Security.Unauthorized" "connection failure"))).2) := by
  constructor
  · cases w with
    | error e =>
        constructor <;> simp [AuthService.registerSession]
    | ok node =>
        constructor <;> simp [AuthService.registerSession]
  · refine ⟨rfl, by simp [AuthService.authenticateSession],
      by simp [AuthService.authenticateSession]⟩

/-- Claim C5: on every path of authenticate on which the password comparison
happens, the session close event strictly precedes it in the trace. -/
theorem session_closed_before_password_compare (pw : String)
    (r : Except JSError (List UserNode))
    (h : Event.comparePassword ∈ (AuthService.authenticateSession pw r).2) :
    ∃ i j, i < j ∧
      (AuthService.authenticateSession pw r).2.get? i = some Event.sessionClose ∧
      (AuthService.authenticateSession pw r).2.get? j = some Event.comparePassword := by
  match r with
  | Except.error e => simp [AuthService.authenticateSession] at h
  | Except.ok [] => simp [AuthService.authenticateSession] at h
  | Except.ok (u :: rest) =>
      by_cases hc : (bcrypt.compare pw u.password == false) = true
      · exact ⟨2, 3, by decide, by simp [AuthService.authenticateSession, hc],
          by simp [AuthService.authenticateSession, hc]⟩
      · exact ⟨2, 3, by decide, by simp [AuthService.authenticateSession, hc],
          by simp [AuthService.authenticateSession, hc]⟩

theorem session_closed_before_password_compare_witness :
    ∃ i j, i < j ∧
      (AuthService.authenticateSession "wrong"
        (Except.ok [⟨"uuid-0", "a@x.com", "h0", "Alice"⟩])).2.get? i =
          some Event.sessionClose ∧
      (AuthService.authenticateSession "wrong"
        (Except.ok [⟨"uuid-0", "a@x.com", "h0", "Alice"⟩])).2.get? j =
          some Event.comparePassword :=
  session_closed_before_password_compare "wrong"
    (Except.ok [⟨"uuid-0", "a@x.com", "h0", "Alice"⟩]) (by decide)

theorem filter_eq_nil_of_any_eq_false {α : Type} (p : α → Bool) (l : List α)
    (h : l.any p = false) : l.filter p = [] := by
  induction l with
  | nil => rfl
  | cons a l ih =>
      simp only [List.any_cons, Bool.or_eq_false_iff] at h
      simp [List.filter_cons, h.1, ih h.2]

/-- Claim C1: registering a fresh email and then authenticating with the same
credentials against the resulting store succeeds, and the record returned by
authenticate carries the registered userId, email and name and has no
password field. -/
theorem register_then_authenticate_roundtrip (db : DBState) (email pw nm : String)
    (h : db.users.any (fun u => u.email == email) = false) :
    ∃ r w : UserWithToken,
      (AuthService.register db email pw nm).1 = Except.ok r ∧
      (AuthService.authenticate (AuthService.register db email pw nm).2.1 email pw).1 =
        Except.ok (AuthResult.success w) ∧
      JObj.get w.props "userId" = JObj.get r.props "userId" ∧
      JObj.get w.props "userId" = some (JValue.str (randomUuid db.nextId)) ∧
      JObj.get w.props "email" = some (JValue.str email) ∧
      JObj.get w.props "name" = some (JValue.str nm) ∧
      JObj.get w.props "password" = none := by
  have hw : executeWriteCreateUser db email (bcrypt.hash pw SALT_ROUNDS) nm =
      Except.ok (⟨randomUuid db.nextId, email, bcrypt.hash pw SALT_ROUNDS, nm⟩,
        ⟨db.users ++ [⟨randomUuid db.nextId, email, bcrypt.hash pw SALT_ROUNDS, nm⟩],
          db.nextId + 1⟩) := by
    simp [executeWriteCreateUser, h]
  have hnil : db.users.filter (fun u => u.email == email) = [] :=
    filter_eq_nil_of_any_eq_false _ _ h
  refine ⟨⟨[("userId", JValue.str (randomUuid db.nextId)), ("email", JValue.str email),
      ("name", JValue.str nm)],
      Jwt.sign (AuthService.userToClaims
        [("userId", JValue.str (randomUuid db.nextId)), ("email", JValue.str email),
         ("name", JValue.str nm)]) JWT_SECRET⟩,
    ⟨[("userId", JValue.str (randomUuid db.nextId)), ("email", JValue.str email),
      ("name", JValue.str nm)],
      Jwt.sign (AuthService.userToClaims
        [("userId", JValue.str (randomUuid db.nextId)), ("email", JValue.str email),
         ("name", JValue.str nm)]) JWT_SECRET⟩, ?_, ?_, rfl, ?_, ?_, ?_, ?_⟩
  · simp [AuthService.register, hw, AuthService.registerSession, JObj.remove,
      UserNode.properties]
  · simp [AuthService.register, hw, AuthService.authenticate, executeReadMatchUser,
      List.filter_append, hnil, AuthService.authenticateSession, bcrypt.compare,
      JObj.remove, UserNode.properties]
  · simp [JObj.get]
  · simp [JObj.get]
  · simp [JObj.get]
  · simp [JObj.get]

theorem register_then_authenticate_roundtrip_witness :
    ∃ r w : UserWithToken,
      (AuthService.register ⟨[], 0⟩ "a@x.com" "secret123" "Alice").1 = Except.ok r ∧
      (AuthService.authenticate
        (AuthService.register ⟨[], 0⟩ "a@x.com" "secret123" "Alice").2.1
        "a@x.com" "secret123").1 = Except.ok (AuthResult.success w) ∧
      JObj.get w.props "userId" = JObj.get r.props "userId" ∧
      JObj.get w.props "userId" = some (JValue.str (randomUuid (0 : Nat))) ∧
      JObj.get w.props "email" = some (JValue.str "a@x.com") ∧
      JObj.get w.props "name" = some (JValue.str "Alice") ∧
      JObj.get w.props "password" = none :=
  register_then_authenticate_roundtrip ⟨[], 0⟩ "a@x.com" "secret123" "Alice" (by decide)

/-- Claim C8: a token returned by a successful register or authenticate call,
when verified and decoded with the signing secret, yields claims whose sub,
userId and name equal the originating user node userId, userId and name. -/
theorem issued_token_verifies_to_user_claims (db : DBState)
    (email pw nm : String) (u : UserNode) (rest : List UserNode) :
    (db.users.any (fun v => v.email == email) = false →
      ∃ r : UserWithToken, (AuthService.register db email pw nm).1 = Except.ok r ∧
        Jwt.verify r.token JWT_SECRET = some
          [("sub", JValue.str (randomUuid db.nextId)),
           ("userId", JValue.str (randomUuid db.nextId)),
           ("name", JValue.str nm)]) ∧
    (executeReadMatchUser db email = u :: rest →
      bcrypt.compare pw u.password = true →
      ∃ w : UserWithToken,
        (AuthService.authenticate db email pw).1 = Except.ok (AuthResult.success w) ∧
        Jwt.verify w.token JWT_SECRET = some
          [("sub", JValue.str u.userId), ("userId", JValue.str u.userId),
           ("name", JValue.str u.name)]) := by
  constructor
  · intro h
    have hw : executeWriteCreateUser db email (bcrypt.hash pw SALT_ROUNDS) nm =
        Except.ok (⟨randomUuid db.nextId, email, bcrypt.hash pw SALT_ROUNDS, nm⟩,
          ⟨db.users ++ [⟨randomUuid db.nextId, email, bcrypt.hash pw SALT_ROUNDS, nm⟩],
            db.nextId + 1⟩) := by
      simp [executeWriteCreateUser, h]
    refine ⟨⟨[("userId", JValue.str (randomUuid db.nextId)), ("email", JValue.str email),
        ("name", JValue.str nm)],
        Jwt.sign (AuthService.userToClaims
          [("userId", JValue.str (randomUuid db.nextId)), ("email", JValue.str email),
           ("name", JValue.str nm)]) JWT_SECRET⟩, ?_, ?_⟩
    · simp [AuthService.register, hw, AuthService.registerSession, JObj.remove,
        UserNode.properties]
    · simp [Jwt.verify, Jwt.sign, AuthService.userToClaims, JObj.getD, JObj.get]
  · intro h hc
    refine ⟨⟨[("userId", JValue.str u.userId), ("email", JValue.str u.email),
        ("name", JValue.str u.name)],
        Jwt.sign (AuthService.userToClaims
          [("userId", JValue.str u.userId), ("email", JValue.str u.email),
           ("name", JValue.str u.name)]) JWT_SECRET⟩, ?_, ?_⟩
    · simp [AuthService.authenticate, AuthService.authenticateSession, h, hc,
        JObj.remove, UserNode.properties]
    · simp [Jwt.verify, Jwt.sign, AuthService.userToClaims, JObj.getD, JObj.get]

theorem issued_token_verifies_to_user_claims_witness :
    (∃ r : UserWithToken,
      (AuthService.register ⟨[], 0⟩ "a@x.com" "secret123" "Alice").1 = Except.ok r ∧
      Jwt.verify r.token JWT_SECRET = some
        [("sub", JValue.str (randomUuid (0 : Nat))),
         ("userId", JValue.str (randomUuid (0 : Nat))),
         ("name", JValue.str "Alice")]) ∧
    (∃ w : UserWithToken,
      (AuthService.authenticate
        ⟨[⟨"uuid-0", "a@x.com", bcrypt.hash "secret123" SALT_ROUNDS, "Alice"⟩], 1⟩
        "a@x.com" "secret123").1 = Except.ok (AuthResult.success w) ∧
      Jwt.verify w.token JWT_SECRET = some
        [("sub", JValue.str "uuid-0"), ("userId", JValue.str "uuid-0"),
         ("name", JValue.str "Alice")]) :=
  ⟨(issued_token_verifies_to_user_claims ⟨[], 0⟩ "a@x.com" "secret123" "Alice"
      ⟨"u", "e", "p", "n"⟩ []).1 (by decide),
   (issued_token_verifies_to_user_claims
      ⟨[⟨"uuid-0", "a@x.com", bcrypt.hash "secret123" SALT_ROUNDS, "Alice"⟩], 1⟩
      "a@x.com" "secret123" "ignored"
      ⟨"uuid-0", "a@x.com", bcrypt.hash "secret123" SALT_ROUNDS, "Alice"⟩ []).2
      (by decide) (by decide)⟩

/-- Claim C10: neither register nor authenticate validates its string inputs;
with empty email, password and name the service raises no error of its own,
the empty email and name and the hash of the empty password are forwarded to
the store unchanged, and authenticate runs the lookup with the empty email. -/
theorem no_input_validation_empty_strings (db : DBState)
    (h : db.users.any (fun u => u.email == "") = false) :
    (∃ r, (AuthService.register db "" "" "").1 = Except.ok r) ∧
    (AuthService.register db "" "" "").2.1.users =
      db.users ++ [⟨randomUuid db.nextId, "", bcrypt.hash "" SALT_ROUNDS, ""⟩] ∧
    (AuthService.authenticate db "" "").1 = Except.ok AuthResult.failed := by
  have hw : executeWriteCreateUser db "" (bcrypt.hash "" SALT_ROUNDS) "" =
      Except.ok (⟨randomUuid db.nextId, "", bcrypt.hash "" SALT_ROUNDS, ""⟩,
        ⟨db.users ++ [⟨randomUuid db.nextId, "", bcrypt.hash "" SALT_ROUNDS, ""⟩],
          db.nextId + 1⟩) := by
    simp [executeWriteCreateUser, h]
  have hnil : db.users.filter (fun u => u.email == "") = [] :=
    filter_eq_nil_of_any_eq_false _ _ h
  refine ⟨⟨⟨[("userId", JValue.str (randomUuid db.nextId)), ("email", JValue.str ""),
      ("name", JValue.str "")],
      Jwt.sign (AuthService.userToClaims
        [("userId", JValue.str (randomUuid db.nextId)), ("email", JValue.str ""),
         ("name", JValue.str "")]) JWT_SECRET⟩, ?_⟩, ?_, ?_⟩
  · simp [AuthService.register, hw, AuthService.registerSession, JObj.remove,
      UserNode.properties]
  · simp [AuthService.register, hw]
  · simp [AuthService.authenticate, AuthService.authenticateSession,
      executeReadMatchUser, hnil]

theorem no_input_validation_empty_strings_witness :
    (∃ r, (AuthService.register ⟨[], 0⟩ "" "" "").1 = Except.ok r) ∧
    (AuthService.register ⟨[], 0⟩ "" "" "").2.1.users =
      [] ++ [⟨randomUuid (0 : Nat), "", bcrypt.hash "" SALT_ROUNDS, ""⟩] ∧
    (AuthService.authenticate ⟨[], 0⟩ "" "").1 = Except.ok AuthResult.failed :=
  no_input_validation_empty_strings ⟨[], 0⟩ (by decide)
